/-
  Verification development for the payment-receipt verification pipeline
  of the An-Nour backend (app/utils/receipt_analyzer.py and
  app/utils/ocr_processor.py).

  The Python code is shallowly embedded over `List Char`.  The regular
  expressions used by the source are embedded via a small executable
  backtracking engine (`RE` / `reM`) whose alternative ordering reproduces
  the Python `re` module's leftmost / greedy-first semantics; each pattern
  term below carries the original regex in a comment.  Character-level
  operations (`str.upper`, `str.title`, `str.strip`, `\s`, `\b`, `\d`)
  are modelled for ASCII text, which covers every concrete input
  considered here.  Python floats in the source only ever hold integral
  amounts (500 .. 500000), so amounts are modelled as `Nat`.
-/
import Mathlib

set_option maxRecDepth 8000

namespace AnNour

/-! ### Character classes (Python `re` semantics, ASCII fragment) -/

/-- Python `\s` : space, tab, newline, carriage return, vertical tab, form feed. -/
def pySpace (c : Char) : Bool :=
  c == ' ' || c == '\t' || c == '\n' || c == '\r' || c == '\x0b' || c == '\x0c'

/-- Python `\d` (ASCII). -/
def isDigitC (c : Char) : Bool := '0' ≤ c && c ≤ '9'

/-- Python `\w` (ASCII): letters, digits, underscore. -/
def isWordChar (c : Char) : Bool :=
  ('A' ≤ c && c ≤ 'Z') || ('a' ≤ c && c ≤ 'z') || isDigitC c || c == '_'

/-- `[A-Z]`. -/
def isUpperAZ (c : Char) : Bool := 'A' ≤ c && c ≤ 'Z'

/-- `[a-z]` or `[A-Z]`. -/
def isAsciiAlpha (c : Char) : Bool := isUpperAZ c || ('a' ≤ c && c ≤ 'z')

/-- `[A-Z0-9]`. -/
def isUpperAlnum (c : Char) : Bool := isUpperAZ c || isDigitC c

/-! ### A small executable regex engine

`RE` is the abstract syntax of the fragment of Python regexes the source
uses.  `reM` is a CPS backtracking matcher: the order in which branches
are tried (`<|>`) reproduces Python's preference order (left alternative
first, greedy quantifiers try longer first, lazy quantifiers shorter
first).  `fuel` only bounds the recursion; every call below supplies far
more fuel than any match can consume. -/

inductive RE : Type where
  | eps : RE
  | cls (p : Char → Bool) : RE
  | seq (r s : RE) : RE
  | alt (r s : RE) : RE
  | star (r : RE) : RE
  | starL (r : RE) : RE
  | rep (r : RE) (lo hi : Nat) : RE
  | repL (r : RE) (lo hi : Nat) : RE
  | opt (r : RE) : RE
  | grp (r : RE) : RE
  | look (r : RE) : RE
  | bnd : RE
  | eos : RE

/-- Continuation type of the matcher: previous character (for `\b`),
remaining input, current capture of group 1. -/
def RK : Type :=
  Option Char → List Char → Option (List Char) → Option (List Char × Option (List Char))

/-- CPS backtracking matcher.  Result: remaining input after the whole
match together with the group-1 capture. -/
def reM (fuel : Nat) (r : RE) (p : Option Char) (cs : List Char)
    (cap : Option (List Char)) (k : RK) : Option (List Char × Option (List Char)) :=
  match fuel with
  | 0 => none
  | fuel + 1 =>
    match r with
    | .eps => k p cs cap
    | .cls q =>
      match cs with
      | [] => none
      | c :: rest => if q c then k (some c) rest cap else none
    | .seq a b =>
      reM fuel a p cs cap (fun p' cs' cap' => reM fuel b p' cs' cap' k)
    | .alt a b =>
      (reM fuel a p cs cap k) <|> (reM fuel b p cs cap k)
    | .star a =>
      (reM fuel a p cs cap (fun p' cs' cap' =>
        if cs'.length < cs.length then reM fuel (.star a) p' cs' cap' k else none))
      <|> k p cs cap
    | .starL a =>
      k p cs cap <|>
      (reM fuel a p cs cap (fun p' cs' cap' =>
        if cs'.length < cs.length then reM fuel (.starL a) p' cs' cap' k else none))
    | .rep a lo hi =>
      match lo, hi with
      | 0, 0 => k p cs cap
      | 0, hi + 1 =>
        (reM fuel a p cs cap (fun p' cs' cap' => reM fuel (.rep a 0 hi) p' cs' cap' k))
        <|> k p cs cap
      | lo + 1, hi =>
        reM fuel a p cs cap (fun p' cs' cap' => reM fuel (.rep a lo (hi - 1)) p' cs' cap' k)
    | .repL a lo hi =>
      match lo, hi with
      | 0, 0 => k p cs cap
      | 0, hi + 1 =>
        k p cs cap <|>
        (reM fuel a p cs cap (fun p' cs' cap' => reM fuel (.repL a 0 hi) p' cs' cap' k))
      | lo + 1, hi =>
        reM fuel a p cs cap (fun p' cs' cap' => reM fuel (.repL a lo (hi - 1)) p' cs' cap' k)
    | .opt a => (reM fuel a p cs cap k) <|> k p cs cap
    | .grp a =>
      reM fuel a p cs cap (fun p' cs' _ =>
        k p' cs' (some (cs.take (cs.length - cs'.length))))
    | .look a =>
      match reM fuel a p cs cap (fun _ cs' cap' => some (cs', cap')) with
      | some _ => k p cs cap
      | none => none
    | .bnd =>
      let wp := match p with | some c => isWordChar c | none => false
      let wn := match cs with | c :: _ => isWordChar c | [] => false
      if wp != wn then k p cs cap else none
    | .eos =>
      match cs with
      | [] => k p cs cap
      | ['\n'] => k p cs cap
      | _ => none

/-- Generous fuel: far above what any pattern below can consume on `cs`. -/
def engineFuel (cs : List Char) : Nat := (cs.length + 64) * 64

/-- Try to match `r` anchored at the start of `cs` (previous char `p`).
Returns `(whole match, group 1)`. -/
def reMatchAt (r : RE) (p : Option Char) (cs : List Char) :
    Option (List Char × Option (List Char)) :=
  match reM (engineFuel cs) r p cs none (fun _ rest cap => some (rest, cap)) with
  | some (rest, cap) => some (cs.take (cs.length - rest.length), cap)
  | none => none

/-- `re.search`: leftmost match; returns `(group 0, group 1)`. -/
def reSearchAux (r : RE) : Nat → Option Char → List Char →
    Option (List Char × Option (List Char))
  | 0, _, _ => none
  | f + 1, p, cs =>
    match reMatchAt r p cs with
    | some m => some m
    | none =>
      match cs with
      | [] => none
      | c :: rest => reSearchAux r f (some c) rest

def reSearch (r : RE) (cs : List Char) : Option (List Char × Option (List Char)) :=
  reSearchAux r (cs.length + 1) none cs

/-- `re.finditer`: all non-overlapping matches, left to right; for each
match, its start index and its group-1 capture (group 0 if no group). -/
def reFindIterAux (r : RE) : Nat → Option Char → Nat → List Char → List (Nat × List Char)
  | 0, _, _, _ => []
  | f + 1, p, idx, cs =>
    match reMatchAt r p cs with
    | some (m, cap) =>
      let g := match cap with | some g => g | none => m
      if m.length = 0 then
        match cs with
        | [] => [(idx, g)]
        | c :: rest => (idx, g) :: reFindIterAux r f (some c) (idx + 1) rest
      else
        (idx, g) :: reFindIterAux r f m.getLast? (idx + m.length) (cs.drop m.length)
    | none =>
      match cs with
      | [] => []
      | c :: rest => reFindIterAux r f (some c) (idx + 1) rest

def reFindIter (r : RE) (cs : List Char) : List (Nat × List Char) :=
  reFindIterAux r (cs.length + 1) none 0 cs

/-- `re.sub(r, repl, cs)` for the non-nullable patterns used below:
replace every non-overlapping match, scanning left to right. -/
def reSubAllAux (r : RE) (repl : List Char) : Nat → Option Char → List Char → List Char
  | 0, _, cs => cs
  | f + 1, p, cs =>
    match reMatchAt r p cs with
    | some (m, _) =>
      if m.length = 0 then
        match cs with
        | [] => repl
        | c :: rest => repl ++ c :: reSubAllAux r repl f (some c) rest
      else
        repl ++ reSubAllAux r repl f m.getLast? (cs.drop m.length)
    | none =>
      match cs with
      | [] => []
      | c :: rest => c :: reSubAllAux r repl f (some c) rest

def reSubAll (r : RE) (repl : List Char) (cs : List Char) : List Char :=
  reSubAllAux r repl (cs.length + 1) none cs

/-- Literal string as a regex. -/
def litRE (s : String) : RE :=
  s.data.foldr (fun c r => RE.seq (RE.cls (fun x => x == c)) r) RE.eps

/-- Case-insensitive literal (ASCII), for patterns compiled with
`re.IGNORECASE`. -/
def ciLitRE (s : String) : RE :=
  s.data.foldr (fun c r => RE.seq (RE.cls (fun x => x.toUpper == c.toUpper)) r) RE.eps

/-- `X+` (greedy). -/
def plusRE (r : RE) : RE := RE.seq r (RE.star r)

/-- `X+?` (lazy). -/
def plusLazyRE (r : RE) : RE := RE.seq r (RE.starL r)

/-! ### Python string primitives (ASCII fragment) -/

/-- `str.strip()`. -/
def pyStrip (cs : List Char) : List Char :=
  ((cs.dropWhile pySpace).reverse.dropWhile pySpace).reverse

/-- `str.upper()` (ASCII). -/
def pyUpper (cs : List Char) : List Char := cs.map Char.toUpper

/-- `str.title()` (ASCII): a letter is uppercased when the previous
character is not a letter, lowercased otherwise. -/
def pyTitleAux : Bool → List Char → List Char
  | _, [] => []
  | prevAlpha, c :: rest =>
    if isAsciiAlpha c then
      (if prevAlpha then c.toLower else c.toUpper) :: pyTitleAux true rest
    else
      c :: pyTitleAux false rest

def pyTitle (cs : List Char) : List Char := pyTitleAux false cs

/-- Python's `needle in haystack` substring test. -/
def isSubstr (p : List Char) : List Char → Bool
  | [] => p.isEmpty
  | c :: rest => p.isPrefixOf (c :: rest) || isSubstr p rest

/-- Value of a decimal digit string (`int(num)`). -/
def natOfDigits (ds : List Char) : Nat :=
  ds.foldl (fun a c => a * 10 + (c.toNat - '0'.toNat)) 0

/-! ### `ReceiptAnalyzer._clean_ocr`

```python
t = text.upper()
t = re.sub(r'N[0O]UVEAU\s*S[0O][1I]DE', 'NOUVEAU SOLDE', t)
t = re.sub(r'\s+', ' ', t)
return t.strip()
``` -/

/-- `N[0O]UVEAU\s*S[0O][1I]DE`. -/
def nouveauSoldeRE : RE :=
  RE.seq (litRE "N") (RE.seq (RE.cls (fun c => c == '0' || c == 'O'))
    (RE.seq (litRE "UVEAU") (RE.seq (RE.star (RE.cls pySpace))
      (RE.seq (litRE "S") (RE.seq (RE.cls (fun c => c == '0' || c == 'O'))
        (RE.seq (RE.cls (fun c => c == '1' || c == 'I')) (litRE "DE")))))))

/-- `\s+`. -/
def wsPlusRE : RE := plusRE (RE.cls pySpace)

def clean_ocr (text : List Char) : List Char :=
  pyStrip (reSubAll wsPlusRE [' ']
    (reSubAll nouveauSoldeRE "NOUVEAU SOLDE".data (pyUpper text)))

/-! ### `ReceiptAnalyzer.extract_amount`

```python
pattern = r'(-?\s*\d{1,3}(?:[.,]\d{3})*(?:[.,]\d{1,2})?)\s*F'
candidates = []
for m in re.finditer(pattern, raw_text, re.IGNORECASE):
    amount_str = m.group(1).strip()
    num = re.sub(r'[^\d]', '', amount_str)
    if num:
        val = int(num)
        if 500 <= val <= 500000:
            candidates.append((m.start(), val))
if not candidates:
    return None
amount = min(candidates, key=lambda x: x[0])[1]
return float(amount)
``` -/

/-- `[.,]`. -/
def sepCls : RE := RE.cls (fun c => c == '.' || c == ',')

/-- `(-?\s*\d{1,3}(?:[.,]\d{3})*(?:[.,]\d{1,2})?)\s*F`  (IGNORECASE, so
the final literal matches `F` or `f`). -/
def amountRE : RE :=
  RE.seq
    (RE.grp (RE.seq (RE.opt (RE.cls (fun c => c == '-')))
      (RE.seq (RE.star (RE.cls pySpace))
        (RE.seq (RE.rep (RE.cls isDigitC) 1 3)
          (RE.seq (RE.star (RE.seq sepCls (RE.rep (RE.cls isDigitC) 3 3)))
            (RE.opt (RE.seq sepCls (RE.rep (RE.cls isDigitC) 1 2))))))))
    (RE.seq (RE.star (RE.cls pySpace)) (RE.cls (fun c => c == 'F' || c == 'f')))

/-- All raw matches `(m.start(), m.group(1))` of the amount pattern. -/
def amountMatches (raw_text : List Char) : List (Nat × List Char) :=
  reFindIter amountRE raw_text

/-- Body of the candidate loop: strip the group, keep the digits, and
keep the value only when `500 <= val <= 500000`. -/
def amountCandidateOf (m : Nat × List Char) : Option (Nat × Nat) :=
  let num := (pyStrip m.2).filter isDigitC
  if num.isEmpty then none
  else
    let val := natOfDigits num
    if 500 ≤ val ∧ val ≤ 500000 then some (m.1, val) else none

def amountCandidates (raw_text : List Char) : List (Nat × Nat) :=
  (amountMatches raw_text).filterMap amountCandidateOf

/-- `min(candidates, key=lambda x: x[0])` (first minimum, as in Python). -/
def minByPos : List (Nat × Nat) → Option (Nat × Nat)
  | [] => none
  | x :: xs => some (xs.foldl (fun best y => if y.1 < best.1 then y else best) x)

def extract_amount (raw_text : List Char) : Option Nat :=
  (minByPos (amountCandidates raw_text)).map (fun x => x.2)

/-! ### `ReceiptAnalyzer.extract_transaction_id`

```python
clean = self._clean_ocr(raw_text)
patterns = [
    r'T[._\s]([A-Z0-9]{14,19})',
    r'\b(T[ZEH][A-Z0-9]{13,18})\b',
    r'TRANSACTI[0O]N[\s]*[1I]D[\s:]*T?[._\s]?([A-Z0-9]{14,19})',
    r'\b([TV][A-Z0-9]{14,19})\b',
]
for pattern in patterns:
    match = re.search(pattern, clean)
    if match:
        tid = match.group(1) if match.lastindex else match.group(0)
        tid = tid.replace('.', '').replace('_', '').replace(' ', '')
        tid = tid.replace('I', '1').replace('O', '0').replace('l', '1')
        if not tid.startswith('T'):
            tid = 'T' + tid
        if tid not in self.transaction_id_blacklist and 15 <= len(tid) <= 20:
            return tid
return None
``` -/

/-- `[._\s]`. -/
def tidSep (c : Char) : Bool := c == '.' || c == '_' || pySpace c

/-- `T[._\s]([A-Z0-9]{14,19})`. -/
def tidP1 : RE :=
  RE.seq (RE.cls (fun c => c == 'T'))
    (RE.seq (RE.cls tidSep) (RE.grp (RE.rep (RE.cls isUpperAlnum) 14 19)))

/-- `\b(T[ZEH][A-Z0-9]{13,18})\b`. -/
def tidP2 : RE :=
  RE.seq RE.bnd
    (RE.seq (RE.grp (RE.seq (RE.cls (fun c => c == 'T'))
        (RE.seq (RE.cls (fun c => c == 'Z' || c == 'E' || c == 'H'))
          (RE.rep (RE.cls isUpperAlnum) 13 18))))
      RE.bnd)

/-- `TRANSACTI[0O]N[\s]*[1I]D[\s:]*T?[._\s]?([A-Z0-9]{14,19})`. -/
def tidP3 : RE :=
  RE.seq (litRE "TRANSACTI")
    (RE.seq (RE.cls (fun c => c == '0' || c == 'O'))
      (RE.seq (litRE "N")
        (RE.seq (RE.star (RE.cls pySpace))
          (RE.seq (RE.cls (fun c => c == '1' || c == 'I'))
            (RE.seq (litRE "D")
              (RE.seq (RE.star (RE.cls (fun c => pySpace c || c == ':')))
                (RE.seq (RE.opt (RE.cls (fun c => c == 'T')))
                  (RE.seq (RE.opt (RE.cls tidSep))
                    (RE.grp (RE.rep (RE.cls isUpperAlnum) 14 19))))))))))

/-- `\b([TV][A-Z0-9]{14,19})\b`. -/
def tidP4 : RE :=
  RE.seq RE.bnd
    (RE.seq (RE.grp (RE.seq (RE.cls (fun c => c == 'T' || c == 'V'))
        (RE.rep (RE.cls isUpperAlnum) 14 19)))
      RE.bnd)

def tidPatterns : List RE := [tidP1, tidP2, tidP3, tidP4]

/-- `self.transaction_id_blacklist`. -/
def tidBlacklist : List (List Char) :=
  ["1DDETRANSACTI0N".data, "IDDETRANSACTI0N".data,
   "ENPARTENARIATAVECUBA".data, "TRANSACTIONID".data, "TRANSACTI0N1D".data]

/-- The chained `replace` calls: drop `.`, `_`, `' '`, then map
`I -> 1`, `O -> 0`, `l -> 1`. -/
def tidClean (raw : List Char) : List Char :=
  (raw.filter (fun c => !(c == '.' || c == '_' || c == ' '))).map
    (fun c => if c == 'I' then '1' else if c == 'O' then '0' else
              if c == 'l' then '1' else c)

/-- `if not tid.startswith('T'): tid = 'T' + tid`. -/
def tidPrependT (t : List Char) : List Char :=
  match t with
  | [] => ['T']
  | c :: rest => if c = 'T' then c :: rest else 'T' :: c :: rest

/-- `tid not in blacklist and 15 <= len(tid) <= 20`. -/
def tidGuard (t : List Char) : Bool :=
  !(tidBlacklist.contains t) && decide (15 ≤ t.length) && decide (t.length ≤ 20)

def tidTryPatterns : List RE → List Char → Option (List Char)
  | [], _ => none
  | p :: ps, clean =>
    match reSearch p clean with
    | some (g0, cap) =>
      let tid := tidPrependT (tidClean (match cap with | some g => g | none => g0))
      if tidGuard tid then some tid else tidTryPatterns ps clean
    | none => tidTryPatterns ps clean

def extract_transaction_id (raw_text : List Char) : Option (List Char) :=
  tidTryPatterns tidPatterns (clean_ocr raw_text)

/-! ### `ReceiptAnalyzer._clean_account_name` and `extract_account_name`

```python
clean = raw_name.strip()
clean = clean.replace('0', 'o').replace('1', 'l')
clean = clean.replace('.', ' ').replace('_', ' ')
clean = re.sub(r'\s+', ' ', clean).strip()
```
then in `extract_account_name`, for each pattern in order:
`raw_name = match.group(1).strip()`, clean it, strip trailing digits
(`re.sub(r'\d+$', '', clean_name)`), and return `clean_name.title()`
when at least 2 characters survive; otherwise fall back to a literal
substring search for the known names. -/

def cleanAccountName (raw_name : List Char) : List Char :=
  let c1 := pyStrip raw_name
  let c2 := c1.map (fun c => if c == '0' then 'o' else if c == '1' then 'l' else c)
  let c3 := c2.map (fun c => if c == '.' then ' ' else if c == '_' then ' ' else c)
  pyStrip (reSubAll wsPlusRE [' '] c3)

/-- `re.sub(r'\d+$', '', s)`: `$` also matches just before a final
newline. -/
def subTrailingDigits (cs : List Char) : List Char :=
  match cs.reverse with
  | '\n' :: rest => (rest.dropWhile isDigitC).reverse ++ ['\n']
  | r => (r.dropWhile isDigitC).reverse

/-- `[E3]`. -/
def e3Cls : RE := RE.cls (fun c => c == 'E' || c == '3')

/-- `[0O]`. -/
def zeroOCls : RE := RE.cls (fun c => c == '0' || c == 'O')

/-- Lookahead tail of the first name pattern:
`(?=\n|NET|WAVE|N[E3]T|AM[0O]UNT)`. -/
def nameLook1 : RE :=
  RE.alt (RE.cls (fun c => c == '\n'))
    (RE.alt (litRE "NET")
      (RE.alt (litRE "WAVE")
        (RE.alt (RE.seq (litRE "N") (RE.seq e3Cls (litRE "T")))
          (RE.seq (litRE "AM") (RE.seq zeroOCls (litRE "UNT"))))))

/-- `S[0O][1Il]D\s*T[0O]\s*([A-Z0-9][A-Z0-9.\s]{2,30}?)(?=\n|NET|WAVE|N[E3]T|AM[0O]UNT)`. -/
def nameP1 : RE :=
  RE.seq (litRE "S")
    (RE.seq zeroOCls
      (RE.seq (RE.cls (fun c => c == '1' || c == 'I' || c == 'l'))
        (RE.seq (litRE "D")
          (RE.seq (RE.star (RE.cls pySpace))
            (RE.seq (litRE "T")
              (RE.seq zeroOCls
                (RE.seq (RE.star (RE.cls pySpace))
                  (RE.seq (RE.grp (RE.seq (RE.cls isUpperAlnum)
                      (RE.repL (RE.cls (fun c => isUpperAlnum c || c == '.' || pySpace c)) 2 30)))
                    (RE.look nameLook1)))))))))

/-- `SOLD\s+TO\s+([A-Z][A-Z\s]{2,30}?)(?=\n|NET|WAVE|$)`. -/
def nameP2 : RE :=
  RE.seq (litRE "SOLD")
    (RE.seq (plusRE (RE.cls pySpace))
      (RE.seq (litRE "TO")
        (RE.seq (plusRE (RE.cls pySpace))
          (RE.seq (RE.grp (RE.seq (RE.cls isUpperAZ)
              (RE.repL (RE.cls (fun c => isUpperAZ c || pySpace c)) 2 30)))
            (RE.look (RE.alt (RE.cls (fun c => c == '\n'))
              (RE.alt (litRE "NET") (RE.alt (litRE "WAVE") RE.eos))))))))

/-- `PA[1I][E3]M[E3]NT\s*([A-Z0-9]{3,25})`. -/
def nameP3 : RE :=
  RE.seq (litRE "PA")
    (RE.seq (RE.cls (fun c => c == '1' || c == 'I'))
      (RE.seq e3Cls
        (RE.seq (litRE "M")
          (RE.seq e3Cls
            (RE.seq (litRE "NT")
              (RE.seq (RE.star (RE.cls pySpace))
                (RE.grp (RE.rep (RE.cls isUpperAlnum) 3 25))))))))

/-- `PAIEMENT\s*([A-Z0-9]{3,25})`. -/
def nameP4 : RE :=
  RE.seq (litRE "PAIEMENT")
    (RE.seq (RE.star (RE.cls pySpace))
      (RE.grp (RE.rep (RE.cls isUpperAlnum) 3 25)))

/-- `D[E3]\s+([A-Z][A-Z0-9\s]+?)\s+T\s+\d`. -/
def nameP5 : RE :=
  RE.seq (litRE "D")
    (RE.seq e3Cls
      (RE.seq (plusRE (RE.cls pySpace))
        (RE.seq (RE.grp (RE.seq (RE.cls isUpperAZ)
            (plusLazyRE (RE.cls (fun c => isUpperAlnum c || pySpace c)))))
          (RE.seq (plusRE (RE.cls pySpace))
            (RE.seq (litRE "T")
              (RE.seq (plusRE (RE.cls pySpace)) (RE.cls isDigitC)))))))

def namePatterns : List RE := [nameP1, nameP2, nameP3, nameP4, nameP5]

def nameTryPatterns : List RE → List Char → Option (List Char)
  | [], _ => none
  | p :: ps, text_upper =>
    match reSearch p text_upper with
    | some (g0, cap) =>
      let raw_name := pyStrip (match cap with | some g => g | none => g0)
      let clean_name := subTrailingDigits (cleanAccountName raw_name)
      if 2 ≤ clean_name.length then some (pyTitle clean_name)
      else nameTryPatterns ps text_upper
    | none => nameTryPatterns ps text_upper

/-- The `known` fallback dictionary (duplicate literal key `'K2MILO'`
collapses, insertion order `K2MILO` before `K2MI`). -/
def extract_account_name (raw_text : List Char) : Option (List Char) :=
  let text_upper := pyUpper raw_text
  match nameTryPatterns namePatterns text_upper with
  | some n => some n
  | none =>
    if isSubstr "K2MILO".data text_upper then some "K2Milo".data
    else if isSubstr "K2MI".data text_upper then some "K2Milo".data
    else none

/-! ### `ReceiptAnalyzer.check_status` (all patterns with `re.IGNORECASE`) -/

/-- `[1LI]` under IGNORECASE. -/
def oneLICls : RE :=
  RE.cls (fun c => c == '1' || c.toUpper == 'L' || c.toUpper == 'I')

/-- `[E3]` under IGNORECASE. -/
def e3ciCls : RE := RE.cls (fun c => c.toUpper == 'E' || c == '3')

/-- `[0O]` under IGNORECASE. -/
def zeroOciCls : RE := RE.cls (fun c => c == '0' || c.toUpper == 'O')

/-- `C[0O]MP[1LI][E3]T[E3]D` under IGNORECASE. -/
def completedRE : RE :=
  RE.seq (ciLitRE "C")
    (RE.seq zeroOciCls
      (RE.seq (ciLitRE "MP")
        (RE.seq oneLICls
          (RE.seq e3ciCls (RE.seq (ciLitRE "T") (RE.seq e3ciCls (ciLitRE "D")))))))

/-- `[✓✔]`. -/
def checkmarkCls : RE := RE.cls (fun c => c == '✓' || c == '✔')

/-- `[ÉE]` under IGNORECASE (Python also matches `é`). -/
def eAccCls : RE := RE.cls (fun c => c == 'É' || c == 'é' || c.toUpper == 'E')

/-- `[E3]FF[E3]CTU[ÉE]` under IGNORECASE. -/
def effectueRE : RE :=
  RE.seq e3ciCls
    (RE.seq (ciLitRE "FF")
      (RE.seq e3ciCls (RE.seq (ciLitRE "CTU") eAccCls)))

/-- `[\s.:]*`. -/
def statusSepStar : RE := RE.star (RE.cls (fun c => pySpace c || c == '.' || c == ':'))

def statusPatterns : List RE :=
  [ completedRE,
    RE.seq checkmarkCls (RE.seq (RE.star (RE.cls pySpace)) completedRE),
    RE.seq (ciLitRE "STATUS")
      (RE.seq statusSepStar
        (RE.seq (RE.opt checkmarkCls)
          (RE.seq (RE.star (RE.cls pySpace)) completedRE))),
    effectueRE,
    RE.seq (ciLitRE "STATUT") (RE.seq statusSepStar effectueRE),
    ciLitRE "COMPLETED",
    RE.seq (ciLitRE "EFFECTU") eAccCls ]

def check_status (raw_text : List Char) : Bool :=
  statusPatterns.any (fun p => (reSearch p raw_text).isSome)

/-! ### `ReceiptAnalyzer.check_wave` (markers searched with IGNORECASE on
`_clean_ocr(raw_text)`) -/

/-- `.` (any char except newline). -/
def dotCls : RE := RE.cls (fun c => !(c == '\n'))

/-- `AM[0O]UNT` under IGNORECASE. -/
def amountWordRE : RE :=
  RE.seq (ciLitRE "AM") (RE.seq zeroOciCls (ciLitRE "UNT"))

/-- `F[E3][E3]` under IGNORECASE. -/
def feeNoisyRE : RE := RE.seq (ciLitRE "F") (RE.seq e3ciCls e3ciCls)

def waveMarkers : List RE :=
  [ ciLitRE "WAVEFEE",
    RE.seq (ciLitRE "WAVE") (RE.seq (RE.star (RE.cls pySpace)) (ciLitRE "FEE")),
    RE.seq (ciLitRE "WAVE") (RE.seq (RE.star dotCls) amountWordRE),
    RE.seq (ciLitRE "WAVE") (RE.seq (RE.star dotCls) feeNoisyRE),
    RE.seq (ciLitRE "PARTENARIAT") (RE.seq (RE.star dotCls) (ciLitRE "UBA")),
    ciLitRE "UBA",
    RE.seq (ciLitRE "NET") (RE.seq (RE.star (RE.cls pySpace)) amountWordRE),
    RE.seq (ciLitRE "NETAM") (RE.seq zeroOciCls (ciLitRE "UNT")) ]

def check_wave (raw_text : List Char) : Bool :=
  waveMarkers.any (fun p => (reSearch p (clean_ocr raw_text)).isSome)

/-! ### `ReceiptAnalyzer.analyze_receipt` and `get_user_message`

The Ledger (the Prisma `registration.find_first` lookup) is modelled as a
parameter `ledger : Option (List Char) → Bool`: given the extracted
transaction id (possibly `None`), does a record matching the filter
exist?  Python floats only ever carry the integral extracted amounts
here, so `expected_amount` is a `Nat` and the float repr `6000.0` is
produced by `floatRepr`. -/

/-- `str(float(n))` for the integral amounts occurring here. -/
def floatRepr (n : Nat) : String := toString n ++ ".0"

/-- Python `needle in haystack` on strings. -/
def strContains (hay needle : String) : Bool := isSubstr needle.data hay.data

/-- `amount is not None and amount == expected_amount`. -/
def amount_ok_check (raw_text : List Char) (expected_amount : Nat) : Bool :=
  match extract_amount raw_text with
  | some a => a == expected_amount
  | none => false

/-- `['K2Milo',"K2MILO",'K2Milo', 'K2Milo',  'K2MI']` (duplicates kept
as written in the source). -/
def allowList : List (List Char) :=
  ["K2Milo".data, "K2MILO".data, "K2Milo".data, "K2Milo".data, "K2MI".data]

/-- `name_ok = account_name in [...]` — Python `in` on a list is
equality-based membership, and `None in [...]` is `False`. -/
def name_ok_check (account_name : Option (List Char)) : Bool :=
  match account_name with
  | some n => allowList.contains n
  | none => false

/-- The technical error list, in source order. -/
def mk_errors (transaction_id : Option String) (amount : Option Nat)
    (amount_ok : Bool) (expected_amount : Nat) (status_ok is_wave name_ok : Bool)
    (account_name : Option String) (tid_exist : Bool) : List String :=
  (if transaction_id.isNone then ["ID de transaction manquant ou invalide"] else []) ++
  (if !amount_ok then
      ["Montant incorrect : " ++
        (match amount with
         | some a => if a == 0 then "?" else floatRepr a
         | none => "?") ++ "F ≠ " ++ floatRepr expected_amount ++ "F"]
    else []) ++
  (if !status_ok then ["Statut non confirmé (Completed/Effectué)"] else []) ++
  (if !is_wave then ["Signature Wave manquante"] else []) ++
  (if !name_ok then
      ["Nom du compte invalide : '" ++
        (match account_name with | some n => n | none => "None") ++
        "' (doit être 'K2Milo')"]
    else []) ++
  (if tid_exist then
      ["Transaction id exist : " ++
        (match transaction_id with | some t => t | none => "None")]
    else [])

/-- Fall-through tail of `get_user_message` (everything after the
`len(errors) == 1` block, which Python reaches both when that block does
not return and when `len(errors) != 1`). -/
def user_message_rest (errors : List String) (account_name : Option String)
    (amount : Option Nat) (expected_amount : Nat) (tid_exist : Bool) : String :=
  if tid_exist then
    "Cette transaction a déjà été utilisée pour une autre inscription"
  else if errors.any (fun e => strContains e "Montant incorrect") then
    match amount with
    | some a =>
      if a == 0 then
        "Le montant du paiement est illisible. Le montant attendu est " ++
          toString expected_amount ++ "F."
      else
        "Montant invalide : vous avez payé " ++ toString a ++ "F, mais " ++
          toString expected_amount ++ "F sont requis."
    | none =>
      "Le montant du paiement est illisible. Le montant attendu est " ++
        toString expected_amount ++ "F."
  else if errors.any (fun e => strContains e "Nom du compte invalide") then
    match account_name with
    | some n =>
      if n == "" then
        "Impossible d'identifier le destinataire. Le paiement doit être envoyé à 'K2Milo'."
      else
        "Destinataire incorrect : vous avez payé '" ++ n ++
          "', mais le paiement doit être fait à 'K2Milo'."
    | none =>
      "Impossible d'identifier le destinataire. Le paiement doit être envoyé à 'K2Milo'."
  else
    "Cette capture n'est pas une preuve de paiement valide. Validation refusée."

/-- `get_user_message`, embedded faithfully.  Note the source's
`error = errors` (the whole list, not `errors[0]`), so the three
single-cause tests are Python list membership (`==` against each
element), not substring tests. -/
def get_user_message (is_valid : Bool) (errors : List String) (score : Nat)
    (account_name : Option String) (amount : Option Nat) (expected_amount : Nat)
    (tid_exist : Bool) : String :=
  if is_valid then "✓ Paiement vérifié avec succès !"
  else if score < 30 then
    "Image floue ou illisible. Prenez une capture d'écran plus claire et réessayez."
  else if errors.length == 1 then
    if errors.contains "Signature Wave" then
      "Ceci n'est pas un reçu Wave. Envoyez une capture depuis votre application Wave."
    else if errors.contains "ID de transaction" then
      "Impossible de lire le numéro de transaction. Prenez une photo plus nette."
    else if errors.contains "Statut" then
      "Le statut du paiement est illisible. Vérifiez que la capture montre un paiement effectué."
    else user_message_rest errors account_name amount expected_amount tid_exist
  else user_message_rest errors account_name amount expected_amount tid_exist

structure VerificationResult where
  isValid : Bool
  score : Nat
  message : String
  amount : Option Nat
  transactionId : Option (List Char)
  accountName : Option (List Char)
  hasTransactionId : Bool
  hasCorrectAmount : Bool
  hasStatus : Bool
  isWaveReceipt : Bool
  hasValidAccountName : Bool
  errors : List String

def analyze_receipt (ledger : Option (List Char) → Bool)
    (extracted_text : List Char) (expected_amount : Nat) : VerificationResult :=
  let amount := extract_amount extracted_text
  let transaction_id := extract_transaction_id extracted_text
  let account_name := extract_account_name extracted_text
  let status_ok := check_status extracted_text
  let is_wave := check_wave extracted_text
  let amount_ok := amount_ok_check extracted_text expected_amount
  let name_ok := name_ok_check account_name
  let tid_exist := ledger transaction_id
  let is_valid := !tid_exist && amount_ok && status_ok && is_wave && name_ok
  let score :=
    (if transaction_id.isSome then 30 else 0) +
    (if amount_ok then 30 else 0) +
    (if name_ok then 20 else 0) +
    (if status_ok then 15 else 0) +
    (if is_wave then 5 else 0)
  let errors := mk_errors (transaction_id.map String.mk) amount amount_ok
    expected_amount status_ok is_wave name_ok (account_name.map String.mk) tid_exist
  { isValid := is_valid
    score := score
    message := get_user_message is_valid errors score (account_name.map String.mk)
      amount expected_amount tid_exist
    amount := amount
    transactionId := transaction_id
    accountName := account_name
    hasTransactionId := transaction_id.isSome
    hasCorrectAmount := amount_ok
    hasStatus := status_ok
    isWaveReceipt := is_wave
    hasValidAccountName := name_ok
    errors := errors }

/-! ### `OCRProcessor.clean_extracted_text`

```python
t = text.replace("\r\n", "\n").replace("\r", "\n")
t = re.sub(r"[ \t]+", " ", t)
t = re.sub(r"\n\s*\n", "\n\n", t)
t = t.replace("XOF", "CFA").replace("CFAF", "CFA")
t = t.replace("–", "-").replace("—", "-")
t = re.sub(r"(?<=\d)[\s,\.](?=\d{3}\b)", "", t)
return t.strip()
``` -/

/-- `replace("\r\n", "\n")` then `replace("\r", "\n")` (one fused pass
is equivalent to the two sequential replaces). -/
def normNewlines : List Char → List Char
  | [] => []
  | '\r' :: '\n' :: rest => '\n' :: normNewlines rest
  | '\r' :: rest => '\n' :: normNewlines rest
  | c :: rest => c :: normNewlines rest

/-- `[ \t]+`. -/
def spaceTabPlusRE : RE := plusRE (RE.cls (fun c => c == ' ' || c == '\t'))

/-- `\n\s*\n`. -/
def blankLineRE : RE :=
  RE.seq (RE.cls (fun c => c == '\n'))
    (RE.seq (RE.star (RE.cls pySpace)) (RE.cls (fun c => c == '\n')))

/-- `re.sub(r"(?<=\d)[\s,\.](?=\d{3}\b)", "", t)`: drop a separator
that sits between a digit and a three-digit group followed by a word
boundary; after a deletion the scan resumes after the deleted
character, with the original characters as look-behind context. -/
def thousandsJoinAux : Option Char → List Char → List Char
  | _, [] => []
  | prev, c :: rest =>
    let prevDigit := match prev with | some d => isDigitC d | none => false
    let sepHere := pySpace c || c == ',' || c == '.'
    let lookOk :=
      match rest with
      | d1 :: d2 :: d3 :: rest' =>
        isDigitC d1 && isDigitC d2 && isDigitC d3 &&
        (match rest' with | [] => true | x :: _ => !isWordChar x)
      | _ => false
    if prevDigit && sepHere && lookOk then thousandsJoinAux (some c) rest
    else c :: thousandsJoinAux (some c) rest

def thousandsJoin (cs : List Char) : List Char := thousandsJoinAux none cs

def clean_extracted_text (text : List Char) : List Char :=
  if text.isEmpty then []
  else
    pyStrip (thousandsJoin
      ((reSubAll (litRE "CFAF") "CFA".data
        (reSubAll (litRE "XOF") "CFA".data
          (reSubAll blankLineRE "\n\n".data
            (reSubAll spaceTabPlusRE [' '] (normNewlines text))))).map
        (fun c => if c == '–' then '-' else if c == '—' then '-' else c)))

/-! ### `OCRProcessor.process_image`

The Tesseract engine is external; its per-strategy outputs are a
parameter.  `none` models a strategy that raised (caught per strategy),
`some t` a strategy that returned text `t`.  The source builds the
candidate list in strategy order, falls back to one OCR pass on the raw
image only when no strategy produced a nonempty cleaned text, raises if
still empty, and returns `max(candidates, key=len)` (the first maximum,
as Python's `max`). -/

def stratCandidates (outs : List (Option (List Char))) : List (List Char) :=
  outs.filterMap (fun o =>
    match o with
    | none => none
    | some t =>
      let c := clean_extracted_text t
      if !c.isEmpty && !(pyStrip c).isEmpty then some c else none)

def fallbackCandidates (fb : Option (List Char)) : List (List Char) :=
  match fb with
  | none => []
  | some t =>
    let c := clean_extracted_text t
    if !c.isEmpty then [c] else []

/-- `max(candidates, key=lambda x: x[0])`: keep the first of the longest. -/
def pickLongest (c : List Char) (cs : List (List Char)) : List Char :=
  cs.foldl (fun best x => if best.length < x.length then x else best) c

def process_image (outs : List (Option (List Char))) (fb : Option (List Char)) :
    Except Unit (List Char) :=
  let cands := stratCandidates outs
  let cands := if cands.isEmpty then fallbackCandidates fb else cands
  match cands with
  | [] => Except.error ()
  | c :: rest => Except.ok (pickLongest c rest)

/-! ### `OCRProcessor.preprocess_image`

The OpenCV / PIL steps are opaque image transforms; they are modelled as
parameters over an abstract image type.  `none` models a step that
raised.  `_deskew` catches all its own exceptions and is therefore
total.  The enclosing `try` of `preprocess_image` returns
`pil_image.convert("L")` — the grayscale conversion of the *original*
input — whenever any step raises. -/

structure NormalizerSteps (Img : Type) where
  toGray : Img → Img
  autoCrop : Img → Option Img
  deskew : Img → Img
  clahe : Img → Option Img
  denoiseSharpen : Img → Option Img
  thicken : Img → Option Img
  binarize : Img → Option Img
  pad : Img → Option Img

/-- The body of the `try` block, in source order. -/
def normalizePipeline {Img : Type} (S : NormalizerSteps Img) (img : Img) : Option Img :=
  (S.autoCrop (S.toGray img)).bind fun cropped =>
  (S.clahe (S.deskew cropped)).bind fun enhanced =>
  (S.denoiseSharpen enhanced).bind fun sharp =>
  (S.thicken sharp).bind fun thick =>
  (S.binarize thick).bind fun binImg =>
  S.pad binImg

def preprocess_image {Img : Type} (S : NormalizerSteps Img) (img : Img) : Img :=
  match normalizePipeline S img with
  | some out => out
  | none => S.toGray img

/-- Modelled from the spec: "on any internal step failure it degrades to
returning the best image obtained so far (grayscale conversion at
minimum)" — the last successfully computed intermediate image. -/
def bestImageSoFar {Img : Type} (S : NormalizerSteps Img) (img : Img) : Img :=
  let g := S.toGray img
  match S.autoCrop g with
  | none => g
  | some cropped =>
    let d := S.deskew cropped
    match S.clahe d with
    | none => d
    | some enhanced =>
      match S.denoiseSharpen enhanced with
      | none => enhanced
      | some sharp =>
        match S.thicken sharp with
        | none => sharp
        | some thick =>
          match S.binarize thick with
          | none => thick
          | some binImg =>
            match S.pad binImg with
            | none => binImg
            | some out => out

/-! ### Spec-side definitions and concrete inputs -/

/-- Modelled from the spec: the "case-insensitive" comparison of an
extracted account name against an allow-listed spelling. -/
def eqCaseInsensitive (a b : List Char) : Bool :=
  a.map Char.toLower == b.map Char.toLower

/-- The empty Ledger: no transaction id is recorded. -/
def emptyLedger : Option (List Char) → Bool := fun _ => false

/-- Scenario A as the claim describes it: `"Montant: 6000F"`, a valid
17-character `T...` identifier, the allow-listed recipient, `Completed`,
and a provider signature marker. -/
def scenarioAText : List Char :=
  "Montant: 6000F Status: Completed WaveFee K2MILO T.V4FVURZFR0PGF3MQ".data

/-- Scenario A with the amount written with a thousands separator. -/
def scenarioASepText : List Char :=
  "Montant: 6.000F Status: Completed WaveFee K2MILO T.V4FVURZFR0PGF3MQ".data

/-- A receipt text on which every check passes except the provider
signature (no Wave/UBA/net-amount marker appears). -/
def waveMissingText : List Char :=
  "Montant: 6.000F Status: Completed K2MILO T.V4FVURZFR0PGF3MQ".data

/-- A receipt text with amount, status, signature and recipient but no
extractable transaction identifier. -/
def noTidText : List Char :=
  "Montant: 6.000F Status: Completed WaveFee K2MILO".data

/-- Strategy outputs for the OCR-selection witness: two usable texts
(the second longer), one raised strategy, one empty text. -/
def outsSample : List (Option (List Char)) :=
  [some "AB".data, none, some "ABCD".data, some "".data]

/-- Normalizer instantiation over `Img := Nat` in which auto-crop
succeeds and changes the image but contrast enhancement fails. -/
def failSteps : NormalizerSteps Nat :=
  { toGray := fun n => n
    autoCrop := fun n => some (n + 1)
    deskew := fun n => n
    clahe := fun _ => none
    denoiseSharpen := fun n => some n
    thicken := fun n => some n
    binarize := fun n => some n
    pad := fun n => some n }

/-! ### Helper lemmas -/

theorem tidClean_mem {raw : List Char} {c : Char} (hc : c ∈ tidClean raw) :
    c ≠ '.' ∧ c ≠ '_' ∧ c ≠ ' ' ∧ c ≠ 'I' ∧ c ≠ 'O' := by
  simp only [tidClean, List.mem_map, List.mem_filter] at hc
  obtain ⟨d, ⟨-, hd⟩, rfl⟩ := hc
  have hd1 : d ≠ '.' := by intro h; subst h; exact absurd hd (by decide)
  have hd2 : d ≠ '_' := by intro h; subst h; exact absurd hd (by decide)
  have hd3 : d ≠ ' ' := by intro h; subst h; exact absurd hd (by decide)
  by_cases h1 : d = 'I'
  · subst h1; decide
  · by_cases h2 : d = 'O'
    · subst h2; decide
    · by_cases h3 : d = 'l'
      · subst h3; decide
      · have e1 : (d == 'I') = false := beq_eq_false_iff_ne.mpr h1
        have e2 : (d == 'O') = false := beq_eq_false_iff_ne.mpr h2
        have e3 : (d == 'l') = false := beq_eq_false_iff_ne.mpr h3
        simp only [e1, e2, e3, if_false, Bool.false_eq_true]
        exact ⟨hd1, hd2, hd3, h1, h2⟩

theorem tidPrependT_head (t : List Char) : (tidPrependT t).head? = some 'T' := by
  cases t with
  | nil => rfl
  | cons c rest => by_cases h : c = 'T' <;> simp [tidPrependT, h]

theorem tidPrependT_mem {t : List Char} {c : Char} (hc : c ∈ tidPrependT t) :
    c = 'T' ∨ c ∈ t := by
  cases t with
  | nil => simp [tidPrependT] at hc; exact Or.inl hc
  | cons d rest =>
    by_cases h : d = 'T'
    · simp only [tidPrependT, if_pos h] at hc
      exact Or.inr hc
    · simp only [tidPrependT, if_neg h, List.mem_cons] at hc
      rcases hc with h' | h' | h'
      · exact Or.inl h'
      · exact Or.inr (by simp [h'])
      · exact Or.inr (List.mem_cons_of_mem _ h')

theorem tidTry_sound : ∀ (ps : List RE) (clean tid : List Char),
    tidTryPatterns ps clean = some tid →
    (∃ raw, tid = tidPrependT (tidClean raw)) ∧ tidGuard tid = true := by
  intro ps
  induction ps with
  | nil => intro clean tid h; simp [tidTryPatterns] at h
  | cons p ps ih =>
    intro clean tid h
    rw [tidTryPatterns] at h
    cases hs : reSearch p clean with
    | none => rw [hs] at h; exact ih clean tid h
    | some m =>
      rw [hs] at h
      obtain ⟨g0, cap⟩ := m
      dsimp only at h
      split at h
      · obtain rfl : _ = tid := Option.some.inj h
        exact ⟨⟨_, rfl⟩, by assumption⟩
      · exact ih clean tid h

theorem pickLongest_mem : ∀ (cs : List (List Char)) (c : List Char),
    pickLongest c cs ∈ c :: cs := by
  intro cs
  induction cs with
  | nil => intro c; simp [pickLongest]
  | cons x xs ih =>
    intro c
    have h : pickLongest c (x :: xs) =
        pickLongest (if c.length < x.length then x else c) xs := rfl
    rw [h]
    rcases List.mem_cons.1 (ih (if c.length < x.length then x else c)) with h' | h'
    · by_cases hx : c.length < x.length
      · rw [if_pos hx] at h' ⊢
        rw [h']
        exact List.mem_cons_of_mem _ (List.mem_cons_self _ _)
      · rw [if_neg hx] at h' ⊢
        rw [h']
        exact List.mem_cons_self _ _
    · exact List.mem_cons_of_mem _ (List.mem_cons_of_mem _ h')

theorem pickLongest_ge : ∀ (cs : List (List Char)) (c x : List Char),
    x ∈ c :: cs → x.length ≤ (pickLongest c cs).length := by
  intro cs
  induction cs with
  | nil =>
    intro c x hx
    simp only [List.mem_singleton] at hx
    simp [pickLongest, hx]
  | cons y ys ih =>
    intro c x hx
    have h : pickLongest c (y :: ys) =
        pickLongest (if c.length < y.length then y else c) ys := rfl
    rw [h]
    have hcly : c.length ≤ (if c.length < y.length then y else c).length := by
      by_cases hcy : c.length < y.length
      · rw [if_pos hcy]; omega
      · rw [if_neg hcy]
    have hyly : y.length ≤ (if c.length < y.length then y else c).length := by
      by_cases hcy : c.length < y.length
      · rw [if_pos hcy]
      · rw [if_neg hcy]; omega
    have hm : ∀ z, z ∈ (if c.length < y.length then y else c) :: ys →
        z.length ≤ (pickLongest (if c.length < y.length then y else c) ys).length :=
      fun z hz => ih _ z hz
    rcases List.mem_cons.1 hx with rfl | hx
    · exact le_trans hcly (hm _ (List.mem_cons_self _ _))
    · rcases List.mem_cons.1 hx with rfl | hx
      · exact le_trans hyly (hm _ (List.mem_cons_self _ _))
      · exact hm x (List.mem_cons_of_mem _ hx)

theorem fallbackCandidates_shape (fb : Option (List Char)) :
    fallbackCandidates fb = [] ∨ ∃ c, fallbackCandidates fb = [c] := by
  cases fb with
  | none => exact Or.inl rfl
  | some t =>
    by_cases h : (clean_extracted_text t).isEmpty
    · exact Or.inl (by simp [fallbackCandidates, h])
    · exact Or.inr ⟨clean_extracted_text t, by simp [fallbackCandidates, h]⟩

/-! ### Claim C1 -/

/-- C1: for every input text (hence every `ExtractedFields`) and every
ledger state, `analyze_receipt`'s `isValid` equals the conjunction of
exactly the five hard checks — not-duplicate, amount, status, wave
signature, and name; in particular, whenever the Ledger reports the
extracted transaction id as already used, `isValid` is false. -/
theorem C1_isValid_conjunction :
    ∀ (ledger : Option (List Char) → Bool) (text : List Char) (expected : Nat),
    ((analyze_receipt ledger text expected).isValid =
      (!(ledger (extract_transaction_id text)) &&
        amount_ok_check text expected && check_status text && check_wave text &&
        name_ok_check (extract_account_name text))) ∧
    (ledger (extract_transaction_id text) = true →
      (analyze_receipt ledger text expected).isValid = false) := by
  intro ledger text expected
  refine ⟨rfl, fun h => ?_⟩
  simp [analyze_receipt, h]

/-- C1 witness: a ledger that reports every id as used makes the empty
text invalid. -/
theorem C1_witness :
    ((fun (_ : Option (List Char)) => true) (extract_transaction_id []) = true) ∧
    (analyze_receipt (fun _ => true) [] 0).isValid = false :=
  ⟨rfl, (C1_isValid_conjunction (fun _ => true) [] 0).2 rfl⟩

/-! ### Claim C2 -/

/-- C2 counterexample: for the scenario-A text written exactly as the
claim describes it — amount as `"Montant: 6000F"` with no thousands
separator — `analyze_receipt` does NOT return `isValid = true` and
`score = 100`: the amount pattern `\d{1,3}(?:[.,]\d{3})*` cannot match
the four-digit run `6000`, so the amount check fails. -/
theorem C2_counterexample :
    (analyze_receipt emptyLedger scenarioAText 6000).isValid = false ∧
    (analyze_receipt emptyLedger scenarioAText 6000).score = 70 ∧
    extract_amount scenarioAText = none := by
  refine ⟨rfl, rfl, rfl⟩

/-- C2 amended: the end-to-end scenario does hold when the amount is
written with a thousands separator (`"Montant: 6.000F"`): with the valid
17-character `T...` identifier, the allow-listed recipient, `Completed`,
a provider signature marker, `expectedAmount = 6000` and an empty
Ledger, `analyze_receipt` returns `isValid = true` and `score = 100`. -/
theorem C2_amended_scenarioA :
    (analyze_receipt emptyLedger scenarioASepText 6000).isValid = true ∧
    (analyze_receipt emptyLedger scenarioASepText 6000).score = 100 := by
  refine ⟨rfl, rfl⟩

/-! ### Claim C3 -/

/-- C3 counterexample: `extract_amount` does not recover `6000` from
`"6000F"`; the match the pattern finds there is the final three-digit
run `000`, whose value `0` is outside the plausibility range, so the
extraction returns `none`. -/
theorem C3_counterexample : extract_amount "6000F".data = none := by rfl

/-- C3 amended: the separator styles `"6.000F"` and `"6,000F"` both
yield exactly `6000`, but the separator-free `"6000F"` yields absent,
because each digit group before a separator may be at most three digits
long. -/
theorem C3_amended_separators :
    extract_amount "6.000F".data = some 6000 ∧
    extract_amount "6,000F".data = some 6000 ∧
    extract_amount "6000F".data = none := by
  refine ⟨rfl, rfl, rfl⟩

/-! ### Claim C4 -/

/-- C4 counterexample: `"100F"` contains a currency-marked numeric group
(the pattern does match, so `amountMatches` is nonempty), every
candidate is discarded as implausible (`100 < 500`), and
`extract_amount` returns `none` — it does not fall back to the largest
numeric candidate `100`. -/
theorem C4_counterexample :
    amountMatches "100F".data ≠ [] ∧ extract_amount "100F".data = none := by
  refine ⟨by decide, rfl⟩

/-- C4 amended: when every currency-marked numeric group found in the
text is discarded (no digits, or value outside `500 .. 500000`),
`extract_amount` returns absent; there is no fallback to the largest
candidate. -/
theorem C4_amended_no_fallback :
    ∀ raw : List Char,
    (∀ m ∈ amountMatches raw, amountCandidateOf m = none) →
    extract_amount raw = none := by
  intro raw h
  unfold extract_amount amountCandidates
  rw [List.filterMap_eq_nil_iff.mpr h]
  rfl

/-- C4 witness: on `"100F"` every match is discarded and the extraction
returns absent. -/
theorem C4_witness : extract_amount "100F".data = none :=
  C4_amended_no_fallback "100F".data (by decide)

/-! ### Claim C5 -/

/-- C5: the claim states the intended single-cause messages, but the
source binds `error = errors` (the whole list) instead of `errors[0]`,
so the three single-cause tests are Python list membership against the
full error strings and can never succeed.  Evaluating the code at a
receipt where the wave-signature check alone fails (score `95`, exactly
one error) yields the generic rejection message instead of the
"not a Wave receipt" message the claim describes. -/
theorem C5_single_failure_gets_generic_message :
    (analyze_receipt emptyLedger waveMissingText 6000).isValid = false ∧
    (analyze_receipt emptyLedger waveMissingText 6000).score = 95 ∧
    (analyze_receipt emptyLedger waveMissingText 6000).errors =
      ["Signature Wave manquante"] ∧
    (analyze_receipt emptyLedger waveMissingText 6000).message =
      "Cette capture n'est pas une preuve de paiement valide. Validation refusée." := by
  refine ⟨rfl, rfl, rfl, rfl⟩

/-! ### Claim C6 -/

/-- C6 counterexample: `"K2Mi"` — which the extractor really produces,
e.g. from `"Paiement K2MI"` via `str.title()` — is a casing variant of
the allow-listed spelling `"K2MI"`, yet `name_ok` is false: the
membership test is exact, not case-insensitive. -/
theorem C6_counterexample :
    extract_account_name "Paiement K2MI".data = some "K2Mi".data ∧
    eqCaseInsensitive "K2Mi".data "K2MI".data = true ∧
    allowList.contains "K2MI".data = true ∧
    name_ok_check (some "K2Mi".data) = false := by
  refine ⟨rfl, by decide, by decide, by decide⟩

/-- C6 amended: `name_ok` is exact (case-sensitive) membership of the
extracted name in the literal list
`['K2Milo', 'K2MILO', 'K2Milo', 'K2Milo', 'K2MI']`; no other value —
casing variants included — passes. -/
theorem C6_amended_exact_membership :
    ∀ name : Option (List Char),
    name_ok_check name =
      (name == some "K2Milo".data || name == some "K2MILO".data ||
        name == some "K2MI".data) := by
  intro name
  cases name with
  | none => rfl
  | some l =>
    show allowList.contains l =
      (l == "K2Milo".data || l == "K2MILO".data || l == "K2MI".data)
    have h : allowList.contains l =
        (l == "K2Milo".data || (l == "K2MILO".data || (l == "K2Milo".data ||
          (l == "K2Milo".data || (l == "K2MI".data || false))))) := rfl
    rw [h]
    cases hA : (l == "K2Milo".data) <;> cases hB : (l == "K2MILO".data) <;>
      cases hC : (l == "K2MI".data) <;> simp

/-! ### Claim C7 -/

/-- C7: `process_image` returns a cleaned candidate of maximal length
among the strategy outputs; when every strategy yields empty (or raises)
the single fallback pass decides the outcome; and the OCR-exhausted
failure is raised exactly when neither the strategies nor the fallback
produced any text. -/
theorem C7_process_image_selection :
    ∀ (outs : List (Option (List Char))) (fb : Option (List Char)),
    (process_image outs fb = Except.error () ↔
      (stratCandidates outs = [] ∧ fallbackCandidates fb = [])) ∧
    (∀ t, process_image outs fb = Except.ok t →
      (stratCandidates outs = [] → fallbackCandidates fb = [t]) ∧
      (stratCandidates outs ≠ [] →
        t ∈ stratCandidates outs ∧
          ∀ c ∈ stratCandidates outs, c.length ≤ t.length)) := by
  intro outs fb
  cases hs : stratCandidates outs with
  | nil =>
    rcases fallbackCandidates_shape fb with hf | ⟨c, hf⟩
    · refine ⟨⟨fun _ => ⟨rfl, hf⟩, fun _ => ?_⟩, fun t ht => ?_⟩
      · simp [process_image, hs, hf]
      · exfalso
        simp [process_image, hs, hf] at ht
    · refine ⟨⟨fun he => ?_, fun hff => ?_⟩, fun t ht => ⟨fun _ => ?_, fun hne => ?_⟩⟩
      · exfalso
        simp [process_image, hs, hf] at he
      · rw [hf] at hff
        exact absurd hff.2 (by simp)
      · have ht' : c = t := by
          have h2 : (Except.ok (pickLongest c []) : Except Unit (List Char)) =
              Except.ok t := by
            simpa [process_image, hs, hf] using ht
          simpa [pickLongest] using h2
        rw [hf, ht']
      · exact absurd rfl hne
  | cons c rest =>
    refine ⟨⟨fun he => ?_, fun hff => ?_⟩, fun t ht => ⟨fun h1 => ?_, fun _ => ?_⟩⟩
    · exfalso
      simp [process_image, hs] at he
    · exact absurd hff.1 (by simp)
    · exact absurd h1 (by simp)
    · have ht' : pickLongest c rest = t := by
        have := ht
        simp only [process_image, hs, List.isEmpty_cons, if_false] at this
        exact Except.ok.inj this
      rw [← ht']
      exact ⟨pickLongest_mem rest c, fun x hx => pickLongest_ge rest c x hx⟩

/-- C7 witness: on a sample set of strategy outputs the selected text is
a strategy candidate of maximal length. -/
theorem C7_witness :
    "ABCD".data ∈ stratCandidates outsSample ∧
    ∀ c ∈ stratCandidates outsSample, c.length ≤ "ABCD".data.length :=
  ((C7_process_image_selection outsSample none).2 "ABCD".data rfl).2 (by decide)

/-! ### Claim C8 -/

/-- C8 counterexample: the claim says a failing pipeline returns the
best image obtained so far.  Instantiating the abstract steps so that
auto-crop succeeds (and changes the image) but contrast enhancement
fails: the pipeline fails, the best image obtained so far is the cropped
one (`1`), yet `preprocess_image` returns the grayscale conversion of
the original input (`0`) — partial progress is discarded. -/
theorem C8_counterexample :
    normalizePipeline failSteps 0 = none ∧
    bestImageSoFar failSteps 0 = 1 ∧
    preprocess_image failSteps 0 = 0 ∧
    preprocess_image failSteps 0 ≠ bestImageSoFar failSteps 0 := by
  refine ⟨rfl, rfl, rfl, by decide⟩

/-- C8 amended: `preprocess_image` never fails (it is total), and on any
internal step failure it returns exactly the grayscale conversion of the
original input, discarding intermediate results. -/
theorem C8_amended_grayscale_on_failure :
    ∀ (Img : Type) (S : NormalizerSteps Img) (img : Img),
    normalizePipeline S img = none →
    preprocess_image S img = S.toGray img := by
  intro Img S img h
  simp [preprocess_image, h]

/-- C8 witness: the failing instantiation returns the grayscale of the
input. -/
theorem C8_witness : preprocess_image failSteps 0 = failSteps.toGray 0 :=
  C8_amended_grayscale_on_failure Nat failSteps 0 rfl

/-! ### Claim C9 -/

/-- C9: whenever `extract_transaction_id` returns a string, that string
starts with `'T'`, has length between 15 and 20 inclusive, contains none
of `'.'`, `'_'`, `' '`, `'I'`, `'O'`, and is not one of the blacklisted
OCR-garbage constants. -/
theorem C9_transaction_id_invariant :
    ∀ (raw tid : List Char), extract_transaction_id raw = some tid →
    tid.head? = some 'T' ∧ 15 ≤ tid.length ∧ tid.length ≤ 20 ∧
    (∀ c ∈ tid, c ≠ '.' ∧ c ≠ '_' ∧ c ≠ ' ' ∧ c ≠ 'I' ∧ c ≠ 'O') ∧
    tidBlacklist.contains tid = false := by
  intro raw tid h
  obtain ⟨⟨r0, rfl⟩, hg⟩ := tidTry_sound tidPatterns (clean_ocr raw) _ h
  simp only [tidGuard, Bool.and_eq_true, Bool.not_eq_true', decide_eq_true_eq] at hg
  obtain ⟨⟨hbl, h15⟩, h20⟩ := hg
  refine ⟨tidPrependT_head _, h15, h20, ?_, hbl⟩
  intro c hc
  rcases tidPrependT_mem hc with rfl | hc'
  · decide
  · exact tidClean_mem hc'

/-- C9 witness: the identifier extracted from the scenario text
satisfies every invariant. -/
theorem C9_witness :
    ("TV4FVURZFR0PGF3MQ".data.head? = some 'T') ∧
    15 ≤ "TV4FVURZFR0PGF3MQ".data.length ∧
    "TV4FVURZFR0PGF3MQ".data.length ≤ 20 ∧
    (∀ c ∈ "TV4FVURZFR0PGF3MQ".data,
      c ≠ '.' ∧ c ≠ '_' ∧ c ≠ ' ' ∧ c ≠ 'I' ∧ c ≠ 'O') ∧
    tidBlacklist.contains "TV4FVURZFR0PGF3MQ".data = false :=
  C9_transaction_id_invariant scenarioASepText "TV4FVURZFR0PGF3MQ".data rfl

/-! ### Claim C10 -/

/-- C10: a transaction identifier is not required for validity — when no
identifier is extracted, the Ledger lookup on the absent identifier
finds nothing, and the amount, status, signature and name checks all
pass, `analyze_receipt` still returns `isValid = true`; the identifier's
absence only removes its 30-point score contribution (leaving exactly
70) and adds the missing-id technical error entry. -/
theorem C10_validity_without_tid :
    ∀ (ledger : Option (List Char) → Bool) (text : List Char) (expected : Nat),
    extract_transaction_id text = none →
    ledger none = false →
    amount_ok_check text expected = true →
    check_status text = true →
    check_wave text = true →
    name_ok_check (extract_account_name text) = true →
    (analyze_receipt ledger text expected).isValid = true ∧
    (analyze_receipt ledger text expected).score = 70 ∧
    "ID de transaction manquant ou invalide" ∈
      (analyze_receipt ledger text expected).errors := by
  intro ledger text expected htid hled hamount hstatus hwave hname
  refine ⟨?_, ?_, ?_⟩
  · simp [analyze_receipt, htid, hled, hamount, hstatus, hwave, hname]
  · simp [analyze_receipt, htid, hled, hamount, hstatus, hwave, hname]
  · simp [analyze_receipt, mk_errors, htid]

/-- C10 witness: a concrete receipt with amount, status, signature and
recipient but no extractable identifier is accepted with score 70. -/
theorem C10_witness :
    (analyze_receipt emptyLedger noTidText 6000).isValid = true ∧
    (analyze_receipt emptyLedger noTidText 6000).score = 70 ∧
    "ID de transaction manquant ou invalide" ∈
      (analyze_receipt emptyLedger noTidText 6000).errors :=
  C10_validity_without_tid emptyLedger noTidText 6000 rfl rfl rfl rfl rfl rfl

end AnNour



